import Mathlib

/-!
# Verification of the Sidequest pipeline core

Shallow embedding of the repository's pipeline orchestrator
(`backend/agents/coordinator.py` and the five agent modules), the refreshing
experience cache (`backend/services/experience_cache.py`) and the multi-source
aggregator (`backend/services/experience_sources.py`), together with proofs of
the spec's testable properties.

Modelling conventions, applied uniformly:
* Generation-Service calls, web scraping, Reddit fetches and geocoding are
  external collaborators (spec §1/§6); each such call is an oracle input of
  type `Except String α`: `.error msg` is the call raising, `.ok v` is the
  parsed JSON payload.  JSON parsing failures raise inside the same `try`
  block as the call itself and are therefore folded into the same `.error`.
* Python's `datetime` is modelled as `ℚ` (seconds); `uuid.uuid4()` and
  timestamps/latencies recorded inside trace entries are non-semantic metadata
  and are omitted from entries.
* CPython object identity of the mutable lists held in the agent state matters
  (the coordinator takes *shallow* `dict.copy()`s), so those lists live in an
  explicit heap `Mem` and the state holds `Ref`s into it.
-/

namespace Sidequest

/-! ## Source aggregator (`backend/services/experience_sources.py`) -/

/-- Normalized experience record produced by every source
(`SourceExperience` dataclass).  The `id`, `source_url`, `image_url`, `rating`
and `fetched_at` fields are hash- and clock-derived metadata never read by the
aggregation, dedup or cache logic and are omitted. -/
structure SourceExperience where
  name : String
  category : String
  description : String
  location : String
  source : String
  budget_min : Int := 0
  budget_max : Int := 1000
  timing : String := "Flexible"
  time_of_day : String := "flexible"
  solo_friendly : Bool := true
deriving DecidableEq, Repr

/-- Model of Python `str.isspace()` on the characters occurring here. -/
def pyIsSpace (c : Char) : Bool := c.isWhitespace

/-- Model of Python `str.lower()` (character-wise; ASCII-faithful). -/
def pyLower (s : String) : String := String.mk (s.data.map Char.toLower)

/-- Model of Python `str.strip()`: drop leading and trailing whitespace. -/
def pyStrip (s : String) : String :=
  String.mk (((s.data.dropWhile pyIsSpace).reverse.dropWhile pyIsSpace).reverse)

/-- The name normalization inside `ExperienceSourceFetcher._deduplicate`:
`exp.name.lower().strip()` followed by keeping only alphanumeric or space
(`c.isalnum() or c.isspace()`) characters. -/
def normalizeName (s : String) : String :=
  let normalized := pyStrip (pyLower s)
  String.mk (normalized.data.filter (fun c => c.isAlphanum || pyIsSpace c))

/-- The `seen_names` loop body of `ExperienceSourceFetcher._deduplicate`. -/
def dedupGo (seen : List String) : List SourceExperience → List SourceExperience
  | [] => []
  | exp :: rest =>
    let normalized := normalizeName exp.name
    if seen.contains normalized then dedupGo seen rest
    else exp :: dedupGo (normalized :: seen) rest

/-- `ExperienceSourceFetcher._deduplicate`: keep the first occurrence per
normalized name. -/
def _deduplicate (experiences : List SourceExperience) : List SourceExperience :=
  dedupGo [] experiences

/-- First-occurrence-per-key filtering as the spec words it ("keep the first
occurrence per normalized name ..., discarding later duplicates"), generic in
the normalization; used to compare the implementation against the spec's
description under both the spec's key and the implementation's key. -/
def dedupSpecBy (key : SourceExperience → String) : List SourceExperience → List SourceExperience
  | [] => []
  | x :: xs => x :: dedupSpecBy key (xs.filter (fun y => key y != key x))
termination_by l => l.length
decreasing_by
  simp only [List.length_cons]
  exact Nat.lt_succ_of_le (List.length_filter_le _ _)

/-- The dedup key exactly as the claim's sentence describes it: lowercase the
name and remove every character that is neither alphanumeric nor a space —
with no leading/trailing strip. -/
def claimNormalizeName (s : String) : String :=
  String.mk ((pyLower s).data.filter (fun c => c.isAlphanum || c == ' '))

/-- `TravelGuideFetcher.CURATED_EXPERIENCES`, materialized through the
`SourceExperience(...)` constructor calls in `fetch_experiences`
(`source="travel_guide"`, `solo_friendly` left at its `True` default). -/
def CURATED_EXPERIENCES : List SourceExperience :=
  [ { name := "Bangalore Palace Audio Tour", category := "heritage",
      description := "Explore the Tudor-style palace built in 1887 with an immersive audio guide. Marvel at the wood carvings, stained glass windows, and royal artifacts.",
      location := "Vasanth Nagar", source := "travel_guide",
      budget_min := 230, budget_max := 460, timing := "10 AM - 5:30 PM", time_of_day := "afternoon" },
    { name := "Lalbagh Botanical Garden", category := "nature",
      description := "240 acres of century-old trees, the famous Glass House, and Sunday flower shows. One of the finest botanical gardens in India.",
      location := "Lalbagh", source := "travel_guide",
      budget_min := 20, budget_max := 50, timing := "6 AM - 7 PM", time_of_day := "morning" },
    { name := "Nandi Hills Sunrise Trek", category := "nature",
      description := "Wake up at 4 AM for a breathtaking sunrise at Nandi Hills. Popular cycling and trekking destination just 60km from the city.",
      location := "Nandi Hills", source := "travel_guide",
      budget_min := 200, budget_max := 500, timing := "4 AM - 10 AM", time_of_day := "morning" },
    { name := "Vidyarthi Bhavan Masala Dosa", category := "food",
      description := "Since 1943. Queue for the legendary butter-drenched masala dosa at this iconic Basavanagudi institution.",
      location := "Basavanagudi", source := "travel_guide",
      budget_min := 100, budget_max := 200, timing := "7:30 AM - 12 PM, 2:30 PM - 8 PM", time_of_day := "morning" },
    { name := "Rangoli Metro Art Center", category := "art",
      description := "Free art gallery under the MG Road metro station. Rotating exhibitions, weekend workshops, and cultural events.",
      location := "MG Road", source := "travel_guide",
      budget_min := 0, budget_max := 200, timing := "10 AM - 8 PM", time_of_day := "afternoon" },
    { name := "Chickpet Saree Shopping", category := "shopping",
      description := "Navigate the chaotic lanes of old Bangalore's textile district. Silk sarees, traditional jewelry, and wholesale fabric at bargain prices.",
      location := "Chickpet", source := "travel_guide",
      budget_min := 500, budget_max := 5000, timing := "10 AM - 8 PM", time_of_day := "afternoon" },
    { name := "Kempegowda Museum", category := "heritage",
      description := "Learn about Bangalore's founder and the city's transformation from a mud fort to Silicon Valley of India.",
      location := "Bangalore Fort", source := "travel_guide",
      budget_min := 25, budget_max := 50, timing := "10 AM - 5:30 PM", time_of_day := "afternoon" },
    { name := "Toit Brewpub Experience", category := "music",
      description := "Bangalore's most popular microbrewery. Craft beers brewed on-site, great food, and a buzzing atmosphere.",
      location := "Indiranagar", source := "travel_guide",
      budget_min := 800, budget_max := 1500, timing := "12 PM - 11:30 PM", time_of_day := "evening" } ]

/-- A failed source call contributes nothing: `except` blocks around each
source in `fetch_all` and `_scrape_source` turn a raise into an empty
contribution. -/
def excToList (x : Except String (List SourceExperience)) : List SourceExperience :=
  match x with
  | .ok l => l
  | .error _ => []

/-- `TravelGuideFetcher.fetch_experiences`: scrape the two configured sources
(each scrape is an external call, modelled as an oracle; a raise inside one
scrape is caught and yields nothing), then, if fewer than 5 items were
scraped, extend with the fixed curated list. -/
def travel_guide_fetch (scrape1 scrape2 : Except String (List SourceExperience)) :
    List SourceExperience :=
  let experiences := excToList scrape1 ++ excToList scrape2
  if experiences.length < 5 then experiences ++ CURATED_EXPERIENCES
  else experiences

/-- `SocialMediaFetcher.fetch_instagram_experiences` (fixed mock data;
`solo_friendly` and `timing` left at constructor defaults). -/
def fetch_instagram_experiences : List SourceExperience :=
  [ { name := "Third Wave Coffee Roasters", category := "food",
      description := "Instagram-worthy specialty coffee with single-origin beans. The avocado toast is as good as the aesthetics.",
      location := "Indiranagar", source := "instagram",
      budget_min := 300, budget_max := 600, time_of_day := "morning" },
    { name := "The Pottery Lab Workshop", category := "craft",
      description := "Get your hands dirty at this trending pottery studio. 2-hour wheel throwing sessions with take-home pieces.",
      location := "Koramangala", source := "instagram",
      budget_min := 1200, budget_max := 1800, time_of_day := "afternoon" },
    { name := "Cubbon Reads Sunday Book Exchange", category := "art",
      description := "Bring a book, take a book. Community reading sessions under the trees every Sunday morning.",
      location := "Cubbon Park", source := "instagram",
      budget_min := 0, budget_max := 100, time_of_day := "morning" } ]

/-- `SocialMediaFetcher.fetch_twitter_experiences` (fixed mock data). -/
def fetch_twitter_experiences : List SourceExperience :=
  [ { name := "Bangalore Astronomy Club Stargazing", category := "nature",
      description := "Monthly stargazing sessions outside the city. Telescopes provided, learn constellations from experts.",
      location := "Nandi Hills", source := "twitter",
      budget_min := 500, budget_max := 800, time_of_day := "night" },
    { name := "Silent Disco at Cubbon Park", category := "music",
      description := "Trending: wireless headphone party in the park. Three DJ channels, choose your vibe.",
      location := "Cubbon Park", source := "twitter",
      budget_min := 400, budget_max := 600, time_of_day := "evening" } ]

/-- `ExperienceSourceFetcher.fetch_all`: each of the four source calls is
wrapped in its own `try`/`except`, so a raise in one contributes `[]` and the
remaining sources are still attempted; the concatenation (travel guides,
Instagram, Twitter, Reddit last) is deduplicated.  Each call's outcome is an
oracle input. -/
def fetch_all (tg ig tw rd : Except String (List SourceExperience)) :
    List SourceExperience :=
  let all_experiences := excToList tg
  let all_experiences := all_experiences ++ excToList ig
  let all_experiences := all_experiences ++ excToList tw
  let all_experiences := all_experiences ++ excToList rd
  _deduplicate all_experiences

/-! ## Refreshing cache (`backend/services/experience_cache.py`) -/

/-- `CACHE_TTL_SECONDS = 10 * 60`. -/
def CACHE_TTL_SECONDS : ℚ := 10 * 60

/-- `CacheEntry` with `expires_at = created_at + timedelta(seconds=CACHE_TTL_SECONDS)`
as established by `__post_init__`. -/
structure CacheEntry where
  data : List SourceExperience
  created_at : ℚ
  expires_at : ℚ
deriving DecidableEq, Repr

/-- Constructing a `CacheEntry(data=...)` at current time `now`. -/
def mkCacheEntry (data : List SourceExperience) (now : ℚ) : CacheEntry :=
  { data := data, created_at := now, expires_at := now + CACHE_TTL_SECONDS }

/-- `CacheEntry.is_expired`: `datetime.now() > self.expires_at`. -/
def CacheEntry.is_expired (e : CacheEntry) (now : ℚ) : Bool :=
  decide (now > e.expires_at)

/-- Python dict lookup on the insertion-ordered entry table. -/
def dictGet {α : Type} : List (String × α) → String → Option α
  | [], _ => none
  | p :: rest, k => if p.1 == k then some p.2 else dictGet rest k

/-- Python dict assignment: replace in place if the key exists, else append. -/
def dictSet {α : Type} : List (String × α) → String → α → List (String × α)
  | [], k, v => [(k, v)]
  | p :: rest, k, v => if p.1 == k then (k, v) :: rest else p :: dictSet rest k v

/-- The cache's entry table plus an instrumentation counter for the number of
aggregator (`fetcher.fetch_all`) invocations it has performed. -/
structure ExperienceCache where
  cache : List (String × CacheEntry)
  fetch_count : Nat
deriving DecidableEq, Repr

/-- `ExperienceCache._make_key`: `city.lower().strip()`, optionally suffixed
with `:category.lower().strip()`. -/
def _make_key (city : String) (category : Option String) : String :=
  let key := pyStrip (pyLower city)
  match category with
  | some c => key ++ ":" ++ pyStrip (pyLower c)
  | none => key

/-- `ExperienceCache.get`: return the entry's data only when present, live and
not force-refreshed; never fetches. -/
def ExperienceCache.get (c : ExperienceCache) (city : String) (category : Option String)
    (force_refresh : Bool) (now : ℚ) : Option (List SourceExperience) :=
  let key := _make_key city category
  match dictGet c.cache key with
  | none => none
  | some entry => if entry.is_expired now || force_refresh then none else some entry.data

/-- `ExperienceCache.set`: store a fresh entry under the derived key. -/
def ExperienceCache.set (c : ExperienceCache) (city : String)
    (experiences : List SourceExperience) (category : Option String) (now : ℚ) :
    ExperienceCache :=
  { c with cache := dictSet c.cache (_make_key city category) (mkCacheEntry experiences now) }

/-- `ExperienceCache.get_or_fetch`: serve from cache when live; otherwise
invoke the aggregator (counted), filter by category if requested, store and
return.  `fetch` is the aggregator `fetch_all` bound at call time. -/
def ExperienceCache.get_or_fetch (c : ExperienceCache)
    (fetch : String → List SourceExperience) (city : String) (category : Option String)
    (now : ℚ) : List SourceExperience × ExperienceCache :=
  match c.get city category false now with
  | some cached => (cached, c)
  | none =>
    let experiences := fetch city
    let c := { c with fetch_count := c.fetch_count + 1 }
    let experiences :=
      match category with
      | some cat => experiences.filter (fun exp => pyLower exp.category == pyLower cat)
      | none => experiences
    let c := c.set city experiences category now
    (experiences, c)

/-- `ExperienceCache.invalidate` (dict `del` is dropping the key). -/
def ExperienceCache.invalidate (c : ExperienceCache) (city : String)
    (category : Option String) : ExperienceCache :=
  { c with cache := c.cache.filter (fun p => p.1 != _make_key city category) }

/-! ## Pipeline data model (`backend/state/schemas.py`) -/

/-- One entry of the `agent_trace` list.  Entries are dicts whose semantic
content is the agent name and status; the remaining keys (timestamps,
latencies, per-stage counts, query echo) are clock-derived metadata never read
back by the pipeline and are omitted. -/
structure TraceEntry where
  agent : String
  status : String
deriving DecidableEq, Repr

/-- One entry of the `errors` list (`{"agent": ..., "error": ..., "timestamp": ...}`,
timestamp omitted as above). -/
structure ErrorEntry where
  agent : String
  error : String
deriving DecidableEq, Repr

/-- A discovered-experience dict as projected by `_state_to_response`
(`name`, `category`, `timing`, `budget`, `location`, `solo_friendly`,
`source`, `lore`, `description`; missing keys default there, so fields are
total). -/
structure Experience where
  name : String
  category : String
  timing : String
  budget : Int
  location : String
  solo_friendly : Bool
  source : String
  lore : String
  description : String
deriving DecidableEq, Repr

/-- Per-experience annotation maps (`cultural_context`, `social_scaffolding`):
keys are experience names, values are opaque Generation-Service payloads
modelled as strings (spec §1: content quality out of scope). -/
abbrev CtxMap := List (String × String)

/-- `collision_suggestion` payload (`title`, `experiences`, `why`). -/
structure Collision where
  title : String
  experiences : List String
  why : String
deriving DecidableEq, Repr

/-- The parsed `budget_breakdown` JSON object returned by the budget agent's
model call: every key may be absent (`result.get` defaults apply).  The
`breakdown` items are opaque payload dicts modelled as strings. -/
structure BudgetJson where
  total_estimate : Option Int
  breakdown : List String
  deals : List String
  tips : Option (List String)
  within_budget : Option Bool
deriving DecidableEq, Repr

/-- Parsed plot-builder JSON (`narrative_itinerary`, `collision_suggestion`,
each possibly absent; an absent collision is the empty dict, i.e. `none`). -/
structure PlotJson where
  narrative_itinerary : Option String
  collision_suggestion : Option Collision
deriving DecidableEq, Repr

/-- `ItineraryRequest` (pydantic model): the inbound request fields read by
`_create_initial_state`.  `time_available_hours`/`start_time` only ever reach
the plot-builder prompt text (floating point, prompt-only) and are omitted. -/
structure ItineraryRequest where
  query : String
  social_media_urls : List String
  city : String
  budget_min : Int
  budget_max : Int
  num_people : Int
  solo_preference : Bool
  interest_pods : List String
  crowd_preference : String
  start_date : Option String
  end_date : Option String
deriving DecidableEq, Repr

/-! ### The heap of shared mutable lists

CPython list objects are shared between the canonical state and the shallow
`state.copy()` branch copies, so the three list-valued state fields are
references into an explicit heap.  Each heap is indexed by allocation order;
`calls` instruments the Generation-Service invocations (one entry per
`model.generate_content`/`model.ainvoke` call site reached). -/

abbrev Ref := Nat

structure Mem where
  expH : List (List Experience)
  traceH : List (List TraceEntry)
  errH : List (List ErrorEntry)
  calls : List String
deriving DecidableEq, Repr

def Mem.empty : Mem := { expH := [], traceH := [], errH := [], calls := [] }

def Mem.readExp (m : Mem) (r : Ref) : List Experience := m.expH.getD r []

def Mem.readTrace (m : Mem) (r : Ref) : List TraceEntry := m.traceH.getD r []

def Mem.readErr (m : Mem) (r : Ref) : List ErrorEntry := m.errH.getD r []

/-- In-place mutation of a list object: `lst[:] = l` / the underlying write. -/
def Mem.writeExp (m : Mem) (r : Ref) (l : List Experience) : Mem :=
  { m with expH := m.expH.set r l }

def Mem.allocExp (m : Mem) (l : List Experience) : Mem × Ref :=
  ({ m with expH := m.expH ++ [l] }, m.expH.length)

def Mem.allocTrace (m : Mem) (l : List TraceEntry) : Mem × Ref :=
  ({ m with traceH := m.traceH ++ [l] }, m.traceH.length)

def Mem.allocErr (m : Mem) (l : List ErrorEntry) : Mem × Ref :=
  ({ m with errH := m.errH ++ [l] }, m.errH.length)

/-- `list.append` on the trace object `r`. -/
def Mem.appendTrace (m : Mem) (r : Ref) (e : TraceEntry) : Mem :=
  { m with traceH := m.traceH.set r (m.traceH.getD r [] ++ [e]) }

/-- `list.append` on the error object `r`. -/
def Mem.appendErr (m : Mem) (r : Ref) (e : ErrorEntry) : Mem :=
  { m with errH := m.errH.set r (m.errH.getD r [] ++ [e]) }

/-- `list.extend` on the trace object `r` (the argument is a value read before
the extension, as CPython snapshots the iterable's items). -/
def Mem.extendTrace (m : Mem) (r : Ref) (l : List TraceEntry) : Mem :=
  { m with traceH := m.traceH.set r (m.traceH.getD r [] ++ l) }

/-- `list.extend` on the error object `r`. -/
def Mem.extendErr (m : Mem) (r : Ref) (l : List ErrorEntry) : Mem :=
  { m with errH := m.errH.set r (m.errH.getD r [] ++ l) }

def Mem.logCall (m : Mem) (agent : String) : Mem :=
  { m with calls := m.calls ++ [agent] }

/-- `AgentState` (TypedDict): at runtime a plain dict; list-valued fields hold
references to shared list objects, the remaining fields are rebound by
assignment and therefore behave as values. -/
structure AgentState where
  user_query : String
  social_media_urls : List String
  city : String
  budget_range : Int × Int
  num_people : Int
  solo_preference : Bool
  interest_pods : List String
  crowd_preference : String
  start_date : String
  end_date : String
  discovered_experiences : Ref
  cultural_context : CtxMap
  narrative_itinerary : String
  budget_breakdown : Option BudgetJson
  social_scaffolding : CtxMap
  collision_suggestion : Option Collision
  agent_trace : Ref
  errors : Ref
  session_id : String
deriving DecidableEq, Repr

/-- `state.copy()`: a *shallow* dict copy — the record is duplicated, every
list reference inside it is shared with the original. -/
def stateCopy (st : AgentState) : AgentState := st

/-- Response-side budget object built by `_state_to_response`. -/
structure BudgetObj where
  total_estimate : Int
  breakdown : List String
  deals : List String
  within_budget : Bool
deriving DecidableEq, Repr

/-- `ItineraryResponse` (the fields produced by `_state_to_response`). -/
structure ItineraryResponse where
  narrative_itinerary : String
  experiences : List Experience
  cultural_context : CtxMap
  budget_breakdown : Option BudgetObj
  social_scaffolding : CtxMap
  collision_suggestion : Option Collision
  agent_trace : List TraceEntry
  session_id : String
deriving DecidableEq, Repr

/-- The external Generation-Service outcomes for one pipeline run, plus the
completion order of the two parallel branch tasks (`asyncio.gather` resolves
the branches concurrently; each branch's post-call mutation block is atomic,
so the interleaving is fully determined by which branch completes first). -/
structure Oracle where
  discovery : Except String (List Experience)
  cultural : Except String (Option CtxMap)
  community : Except String (Option CtxMap)
  plot : Except String PlotJson
  budget : Except String BudgetJson
  culturalFirst : Bool

/-! ## Agents -/

/-- `run_discovery` (`discovery_agent.run_discovery_agent`): the Gemini call,
JSON parse, geocoding and operating-day filtering all happen inside one
`try`; the oracle carries the resulting item list.  On any raise the except
blocks return `{"discovered_experiences": [], "error": msg}`.  The result is
the pair (item list, optional error message). -/
def run_discovery (m : Mem) (o : Except String (List Experience)) :
    (List Experience × Option String) × Mem :=
  let m := m.logCall "discovery"
  match o with
  | .ok exps => ((exps, none), m)
  | .error e => (([], some e), m)

/-- `cultural_context_agent.run_cultural_context`. -/
def run_cultural_context (st : AgentState) (m : Mem)
    (o : Except String (Option CtxMap)) : AgentState × Mem :=
  let experiences := m.readExp st.discovered_experiences
  if experiences.isEmpty then
    let st := { st with cultural_context := [] }
    let m := m.appendTrace st.agent_trace { agent := "cultural_context", status := "skipped" }
    (st, m)
  else
    let m := m.logCall "cultural_context"
    match o with
    | .ok ctx =>
      let st := { st with cultural_context := ctx.getD [] }
      let m := m.appendTrace st.agent_trace { agent := "cultural_context", status := "success" }
      (st, m)
    | .error e =>
      let m := m.appendErr st.errors { agent := "cultural_context", error := e }
      let m := m.appendTrace st.agent_trace { agent := "cultural_context", status := "error" }
      let st :=
        if st.cultural_context.isEmpty then { st with cultural_context := [] } else st
      (st, m)

/-- `community_agent.run_community`. -/
def run_community (st : AgentState) (m : Mem)
    (o : Except String (Option CtxMap)) : AgentState × Mem :=
  let experiences := m.readExp st.discovered_experiences
  if experiences.isEmpty then
    let st := { st with social_scaffolding := [] }
    let m := m.appendTrace st.agent_trace { agent := "community", status := "skipped" }
    (st, m)
  else
    let m := m.logCall "community"
    match o with
    | .ok scaf =>
      let st := { st with social_scaffolding := scaf.getD [] }
      let m := m.appendTrace st.agent_trace { agent := "community", status := "success" }
      (st, m)
    | .error e =>
      let m := m.appendErr st.errors { agent := "community", error := e }
      let m := m.appendTrace st.agent_trace { agent := "community", status := "error" }
      let st :=
        if st.social_scaffolding.isEmpty then { st with social_scaffolding := [] } else st
      (st, m)

/-- The fixed fallback narrative of the plot-builder's empty-input path. -/
def fallbackNarrative : String :=
  "No experiences found to build a story around. Try a different query!"

/-- `plot_builder_agent.run_plot_builder` (the end-time arithmetic of lines
100–114 only feeds the prompt text and is folded into the oracle). -/
def run_plot_builder (st : AgentState) (m : Mem)
    (o : Except String PlotJson) : AgentState × Mem :=
  let experiences := m.readExp st.discovered_experiences
  if experiences.isEmpty then
    let st := { st with narrative_itinerary := fallbackNarrative }
    let m := m.appendTrace st.agent_trace { agent := "plot_builder", status := "skipped" }
    (st, m)
  else
    let m := m.logCall "plot_builder"
    match o with
    | .ok pj =>
      let st := { st with
        narrative_itinerary := pj.narrative_itinerary.getD ""
        collision_suggestion := pj.collision_suggestion }
      let m := m.appendTrace st.agent_trace { agent := "plot_builder", status := "success" }
      (st, m)
    | .error e =>
      let m := m.appendErr st.errors { agent := "plot_builder", error := e }
      let m := m.appendTrace st.agent_trace { agent := "plot_builder", status := "error" }
      let st :=
        if st.narrative_itinerary.isEmpty then { st with narrative_itinerary := "" } else st
      let st :=
        match st.collision_suggestion with
        | none => { st with collision_suggestion := none }
        | some c => { st with collision_suggestion := some c }
      (st, m)

/-- The tip inserted when the budget agent finds the estimate over budget. -/
def overBudgetTip (overage : Int) : String :=
  "⚠️ Over budget by ₹" ++ toString overage ++ ". Consider dropping or substituting some experiences."

/-- The zero-value breakdown written by the budget agent's empty-input skip
path (`{"total_estimate": 0, "breakdown": [], "deals": [], "within_budget": True}`). -/
def zeroBudgetJson : BudgetJson :=
  { total_estimate := some 0, breakdown := [], deals := [], tips := none,
    within_budget := some true }

/-- The "Post-processing validation" block of `run_budget_optimizer`
(lines 129–142): recompute `within_budget` locally and override the model's
value when it disagrees, inserting a warning tip when over budget. -/
def validate_within_budget (bj : BudgetJson) (total_estimate budget_max : Int) :
    BudgetJson :=
  let actual_within_budget : Bool := decide (total_estimate ≤ budget_max)
  if bj.within_budget ≠ some actual_within_budget then
    let bj := { bj with within_budget := some actual_within_budget }
    if actual_within_budget = false then
      { bj with tips := some (overBudgetTip (total_estimate - budget_max) :: bj.tips.getD []) }
    else bj
  else bj

/-- `budget_agent.run_budget_optimizer`, including the post-processing that
overrides the model-reported `within_budget` with `total_estimate <= budget_max`
recomputed locally.  (Its `logging_system.AgentLogger.log_execution` decorator
is not under `src/`; per spec §1 logging is out of scope and the decorator is
treated as transparent.) -/
def run_budget_optimizer (st : AgentState) (m : Mem)
    (o : Except String BudgetJson) : AgentState × Mem :=
  let experiences := m.readExp st.discovered_experiences
  if experiences.isEmpty then
    let st := { st with budget_breakdown := some zeroBudgetJson }
    let m := m.appendTrace st.agent_trace { agent := "budget", status := "skipped" }
    (st, m)
  else
    let m := m.logCall "budget"
    match o with
    | .ok bj =>
      let total_estimate := bj.total_estimate.getD 0
      let budget_max := st.budget_range.2
      let bj := validate_within_budget bj total_estimate budget_max
      let st := { st with budget_breakdown := some bj }
      let m := m.appendTrace st.agent_trace { agent := "budget", status := "success" }
      (st, m)
    | .error e =>
      let m := m.appendErr st.errors { agent := "budget", error := e }
      let m := m.appendTrace st.agent_trace { agent := "budget", status := "error" }
      let st :=
        match st.budget_breakdown with
        | none => { st with budget_breakdown := none }
        | some b => { st with budget_breakdown := some b }
      (st, m)

/-! ## Coordinator (`backend/agents/coordinator.py`) -/

/-- `_create_initial_state`: fresh empty list objects for the three
list-valued fields; `session_id` is the `uuid.uuid4()` value, passed in. -/
def _create_initial_state (request : ItineraryRequest) (sid : String) (m : Mem) :
    AgentState × Mem :=
  let (m, expRef) := m.allocExp []
  let (m, traceRef) := m.allocTrace []
  let (m, errRef) := m.allocErr []
  ({ user_query := request.query
     social_media_urls := request.social_media_urls
     city := request.city
     budget_range := (request.budget_min, request.budget_max)
     num_people := request.num_people
     solo_preference := request.solo_preference
     interest_pods := request.interest_pods
     crowd_preference := request.crowd_preference
     start_date := request.start_date.getD ""
     end_date := request.end_date.getD ""
     discovered_experiences := expRef
     cultural_context := []
     narrative_itinerary := ""
     budget_breakdown := none
     social_scaffolding := []
     collision_suggestion := none
     agent_trace := traceRef
     errors := errRef
     session_id := sid }, m)

/-- `run_workflow` through the end of Step 1: initial state, "started" trace
entry, synchronous discovery, merge of its outputs (the discovery result list
is a fresh object the field is rebound to). -/
def afterDiscovery (request : ItineraryRequest) (o : Oracle) (sid : String) :
    AgentState × Mem :=
  let (st, m) := _create_initial_state request sid Mem.empty
  let m := m.appendTrace st.agent_trace { agent := "coordinator", status := "started" }
  let ((exps, derr), m) := run_discovery m o.discovery
  let (m, expRef) := m.allocExp exps
  let st := { st with discovered_experiences := expRef }
  let m :=
    match derr with
    | some e => m.appendErr st.errors { agent := "discovery", error := e }
    | none => m
  let m := m.appendTrace st.agent_trace
    { agent := "discovery", status := if exps.isEmpty then "error" else "success" }
  (st, m)

/-- Step 2's `asyncio.gather`: each branch runs on a shallow `state.copy()`;
each branch's single post-call mutation block is atomic, so the heap effects
are sequenced by completion order. -/
def runBranches (st : AgentState) (m : Mem) (o : Oracle) :
    (AgentState × AgentState) × Mem :=
  let c1 := stateCopy st
  let c2 := stateCopy st
  if o.culturalFirst then
    let (cs, m) := run_cultural_context c1 m o.cultural
    let (os, m) := run_community c2 m o.community
    ((cs, os), m)
  else
    let (os, m) := run_community c2 m o.community
    let (cs, m) := run_cultural_context c1 m o.cultural
    ((cs, os), m)

/-- The join of Step 2 (coordinator lines 148–156): copy the two owned output
fields back, then
`state["agent_trace"].extend(branch["agent_trace"][len(state["agent_trace"]):])`
for each branch and `state["errors"].extend(branch["errors"])` for each
branch; every slice/argument is evaluated against the heap state at that
moment, exactly as Python does. -/
def mergeBranches (st : AgentState) (m : Mem) (cs os : AgentState) :
    AgentState × Mem :=
  let st := { st with cultural_context := cs.cultural_context }
  let st := { st with social_scaffolding := os.social_scaffolding }
  let m := m.extendTrace st.agent_trace
    ((m.readTrace cs.agent_trace).drop (m.readTrace st.agent_trace).length)
  let m := m.extendTrace st.agent_trace
    ((m.readTrace os.agent_trace).drop (m.readTrace st.agent_trace).length)
  let m := m.extendErr st.errors (m.readErr cs.errors)
  let m := m.extendErr st.errors (m.readErr os.errors)
  (st, m)

/-- `run_workflow` through the join after the parallel branch set. -/
def afterBranchMerge (request : ItineraryRequest) (o : Oracle) (sid : String) :
    AgentState × Mem :=
  let (st, m) := afterDiscovery request o sid
  let ((cs, os), m) := runBranches st m o
  mergeBranches st m cs os

/-- The full `run_workflow` body up to (and including) the final "completed"
trace entry, returning the final canonical state and heap. -/
def run_workflow_exec (request : ItineraryRequest) (o : Oracle) (sid : String) :
    AgentState × Mem :=
  let (st, m) := afterBranchMerge request o sid
  let (st, m) := run_plot_builder st m o.plot
  let (st, m) := run_budget_optimizer st m o.budget
  let m := m.appendTrace st.agent_trace { agent := "coordinator", status := "completed" }
  (st, m)

/-- The per-item projection of `_state_to_response` (each key read with its
default). -/
def projExperience (exp : Experience) : Experience :=
  { name := exp.name, category := exp.category, timing := exp.timing,
    budget := exp.budget, location := exp.location,
    solo_friendly := exp.solo_friendly, source := exp.source,
    lore := exp.lore, description := exp.description }

/-- `_state_to_response`'s budget projection (`budget.get(key, default)`). -/
def budgetObjOfJson (budget : BudgetJson) : BudgetObj :=
  { total_estimate := budget.total_estimate.getD 0
    breakdown := budget.breakdown
    deals := budget.deals
    within_budget := budget.within_budget.getD true }

/-- `_state_to_response`.  `budget_breakdown` is emitted only `if budget:`
(a `none` models the falsy empty dict; every reachable `some` is a non-empty
dict).  The collision is emitted only `if collision and collision.get("title")`. -/
def _state_to_response (st : AgentState) (m : Mem) : ItineraryResponse :=
  { narrative_itinerary := st.narrative_itinerary
    experiences := (m.readExp st.discovered_experiences).map projExperience
    cultural_context := st.cultural_context
    budget_breakdown := st.budget_breakdown.map budgetObjOfJson
    social_scaffolding := st.social_scaffolding
    collision_suggestion :=
      match st.collision_suggestion with
      | some c => if c.title = "" then none else some c
      | none => none
    agent_trace := m.readTrace st.agent_trace
    session_id := st.session_id }

/-- `run_workflow`: execute the whole pipeline and project the canonical state
into the response. -/
def run_workflow (request : ItineraryRequest) (o : Oracle) (sid : String) :
    ItineraryResponse :=
  let (st, m) := run_workflow_exec request o sid
  _state_to_response st m

/-- The final canonical `state["errors"]` list of a run. -/
def finalErrors (request : ItineraryRequest) (o : Oracle) (sid : String) :
    List ErrorEntry :=
  ((run_workflow_exec request o sid).2).readErr (run_workflow_exec request o sid).1.errors

/-- Number of trace entries carrying a given agent name. -/
def countAgent (l : List TraceEntry) (a : String) : Nat :=
  (l.filter (fun e => e.agent == a)).length

attribute [simp] Mem.empty Mem.readExp Mem.readTrace Mem.readErr Mem.writeExp
  Mem.allocExp Mem.allocTrace Mem.allocErr Mem.appendTrace Mem.appendErr
  Mem.extendTrace Mem.extendErr Mem.logCall stateCopy run_discovery
  run_cultural_context run_community run_plot_builder run_budget_optimizer
  _create_initial_state afterDiscovery runBranches mergeBranches
  afterBranchMerge run_workflow_exec projExperience budgetObjOfJson
  _state_to_response run_workflow finalErrors countAgent zeroBudgetJson

/-! ### Concrete fixtures used by counterexamples and witnesses -/

/-- A discovered experience, as the discovery stage would produce it. -/
def sampleExperience : Experience :=
  { name := "The Pottery Lab Workshop", category := "craft", timing := "Flexible",
    budget := 1500, location := "Koramangala", solo_friendly := true,
    source := "instagram", lore := "", description := "" }

/-- A concrete inbound request. -/
def sampleRequest : ItineraryRequest :=
  { query := "solo pottery date", social_media_urls := [], city := "Bangalore",
    budget_min := 200, budget_max := 5000, num_people := 1,
    solo_preference := true, interest_pods := ["craft_explorer"],
    crowd_preference := "relatively_niche", start_date := none, end_date := none }

def okPlot : PlotJson :=
  { narrative_itinerary := some "A day of clay.", collision_suggestion := none }

/-- A budget payload whose model-reported `within_budget` is wrong on purpose
(1800 is within the 200–5000 range but the model said `false`). -/
def okBudget : BudgetJson :=
  { total_estimate := some 1800, breakdown := ["workshop"], deals := [],
    tips := none, within_budget := some false }

/-- A run whose discovery yields no items; the four downstream oracles are
deliberately non-trivial so that non-invocation is observable. -/
def emptyDiscoveryOracle : Oracle :=
  { discovery := .ok [], cultural := .ok (some [("w", "ctx")]),
    community := .ok (some [("w", "scaf")]), plot := .ok okPlot,
    budget := .ok okBudget, culturalFirst := true }

/-- A run where the Context branch's Generation-Service call fails. -/
def culturalFailOracle : Oracle :=
  { discovery := .ok [sampleExperience],
    cultural := .error "Generation Service unavailable",
    community := .ok (some [("The Pottery Lab Workshop", "scaf")]),
    plot := .ok okPlot, budget := .ok okBudget, culturalFirst := true }

/-- A fully successful run. -/
def successOracle : Oracle :=
  { discovery := .ok [sampleExperience],
    cultural := .ok (some [("The Pottery Lab Workshop", "ctx")]),
    community := .ok (some [("The Pottery Lab Workshop", "scaf")]),
    plot := .ok okPlot, budget := .ok okBudget, culturalFirst := true }

/-- A run where every post-discovery Generation-Service call fails. -/
def allFailOracle : Oracle :=
  { discovery := .ok [sampleExperience], cultural := .error "boom-ctx",
    community := .error "boom-com", plot := .error "boom-plot",
    budget := .error "boom-budget", culturalFirst := true }

/-- The error entry recorded by the failing Context branch of
`culturalFailOracle`. -/
def culturalErrorEntry : ErrorEntry :=
  { agent := "cultural_context", error := "Generation Service unavailable" }

/-- The claim's own dedup example items. -/
def clayRedditItem : SourceExperience :=
  { name := "Clay Studio", category := "craft", description := "", location := "",
    source := "reddit" }

def clayGuideItem : SourceExperience :=
  { name := "clay studio!", category := "craft", description := "", location := "",
    source := "guide" }

/-- Two items whose names differ only by a leading space. -/
def plainXItem : SourceExperience :=
  { name := "x", category := "craft", description := "", location := "",
    source := "reddit" }

def spacedXItem : SourceExperience :=
  { name := " x", category := "craft", description := "", location := "",
    source := "guide" }

/-- A second item, used to mutate a shared discovered-items list. -/
def sampleExperience2 : Experience :=
  { name := "Lalbagh Botanical Garden", category := "nature", timing := "6 AM - 7 PM",
    budget := 50, location := "Lalbagh", solo_friendly := true,
    source := "travel_guide", lore := "", description := "" }

/-- The canonical state at the branch-copy point of a concrete successful run. -/
def c4State : AgentState := (afterDiscovery sampleRequest successOracle "sid-c4").1

def c4Mem : Mem := (afterDiscovery sampleRequest successOracle "sid-c4").2

/-- The Context branch's `state.copy()`. -/
def c4ContextCopy : AgentState := stateCopy c4State

/-- The Community branch's `state.copy()`. -/
def c4CommunityCopy : AgentState := stateCopy c4State

/-- An in-place mutation (`append`) of the discovered-items list performed
through the Context branch's copy. -/
def c4Mutated : Mem :=
  c4Mem.writeExp c4ContextCopy.discovered_experiences
    (c4Mem.readExp c4ContextCopy.discovered_experiences ++ [sampleExperience2])

/-! ## Helper lemmas -/

/-- The seen-set loop of `_deduplicate` computes first-occurrence-per-key
filtering (relative to the names already seen). -/
theorem dedupGo_eq_spec (l : List SourceExperience) : ∀ seen : List String,
    dedupGo seen l = dedupSpecBy (fun e => normalizeName e.name)
      (l.filter (fun y => !(seen.contains (normalizeName y.name)))) := by
  induction l with
  | nil => intro seen; simp [dedupGo, dedupSpecBy]
  | cons x xs ih =>
    intro seen
    by_cases h : normalizeName x.name ∈ seen
    · simp [dedupGo, h, ih seen, List.filter_cons]
    · simp only [dedupGo, List.elem_eq_mem, h, Bool.false_eq_true, if_false,
        List.filter_cons, decide_not, Bool.not_false, if_true, decide_False]
      simp only [dedupSpecBy]
      rw [ih (normalizeName x.name :: seen)]
      simp only [List.filter_filter]
      congr 1
      congr 1
      refine List.filter_congr ?_
      intro a _
      by_cases ha : normalizeName a.name = normalizeName x.name <;>
        simp [List.contains_cons, ha, bne, h]

/-- Dedup never loses a name class: every input item whose normalized name is
not yet seen is represented in the output. -/
theorem dedupGo_represents (l : List SourceExperience) :
    ∀ (seen : List String) (e : SourceExperience), e ∈ l →
      normalizeName e.name ∉ seen →
      ∃ e2, e2 ∈ dedupGo seen l ∧ normalizeName e2.name = normalizeName e.name := by
  induction l with
  | nil => intro seen e he _; cases he
  | cons x xs ih =>
    intro seen e he hs
    by_cases hx : normalizeName x.name ∈ seen
    · rcases List.mem_cons.mp he with rfl | hexs
      · exact absurd hx hs
      · obtain ⟨e2, h1, h2⟩ := ih seen e hexs hs
        exact ⟨e2, by simpa [dedupGo, hx] using h1, h2⟩
    · by_cases hk : normalizeName e.name = normalizeName x.name
      · exact ⟨x, by simp [dedupGo, hx], hk.symm⟩
      · rcases List.mem_cons.mp he with rfl | hexs
        · exact absurd rfl hk
        · have hs2 : normalizeName e.name ∉ (normalizeName x.name :: seen) := by
            simp [hk, hs]
          obtain ⟨e2, h1, h2⟩ := ih (normalizeName x.name :: seen) e hexs hs2
          refine ⟨e2, ?_, h2⟩
          simp only [dedupGo, List.elem_eq_mem, hx, decide_False, Bool.false_eq_true,
            if_false, List.mem_cons]
          exact Or.inr h1

/-- Dict assignment followed by lookup of the same key. -/
theorem dictGet_dictSet_self {α : Type} (d : List (String × α)) (k : String) (v : α) :
    dictGet (dictSet d k v) k = some v := by
  induction d with
  | nil => simp [dictGet, dictSet]
  | cons p rest ih =>
    by_cases h : p.1 = k <;> simp [dictGet, dictSet, h, ih]

/-- The post-processing always ends with the locally recomputed boolean. -/
@[simp] theorem validate_within_budget_within (bj : BudgetJson) (t mx : Int) :
    (validate_within_budget bj t mx).within_budget = some (decide (t ≤ mx)) := by
  unfold validate_within_budget
  by_cases h : bj.within_budget = some (decide (t ≤ mx)) <;> simp [h] <;> split <;> simp

@[simp] theorem validate_within_budget_total (bj : BudgetJson) (t mx : Int) :
    (validate_within_budget bj t mx).total_estimate = bj.total_estimate := by
  unfold validate_within_budget
  by_cases h : bj.within_budget = some (decide (t ≤ mx)) <;> simp [h] <;> split <;> simp

@[simp] theorem validate_within_budget_breakdown (bj : BudgetJson) (t mx : Int) :
    (validate_within_budget bj t mx).breakdown = bj.breakdown := by
  unfold validate_within_budget
  by_cases h : bj.within_budget = some (decide (t ≤ mx)) <;> simp [h] <;> split <;> simp

@[simp] theorem validate_within_budget_deals (bj : BudgetJson) (t mx : Int) :
    (validate_within_budget bj t mx).deals = bj.deals := by
  unfold validate_within_budget
  by_cases h : bj.within_budget = some (decide (t ≤ mx)) <;> simp [h] <;> split <;> simp

set_option maxHeartbeats 4000000

/-! ## Claims -/

/-- C7: every cache entry satisfies `expires_at = created_at + TTL`; `get` on a
stored entry returns its data at any query time strictly before `expires_at`
and reports a miss at any query time strictly after it — in particular an
entry created at `t0` is live at `t0 + TTL - ε` and expired at `t0 + TTL + ε`
for every `ε > 0`. -/
theorem cache_ttl_boundary (c : ExperienceCache) (city : String)
    (category : Option String) (data : List SourceExperience) (t0 t ε : ℚ)
    (hε : 0 < ε) :
    (mkCacheEntry data t0).created_at = t0 ∧
    (mkCacheEntry data t0).expires_at = t0 + CACHE_TTL_SECONDS ∧
    (t < t0 + CACHE_TTL_SECONDS →
      (c.set city data category t0).get city category false t = some data) ∧
    (t0 + CACHE_TTL_SECONDS < t →
      (c.set city data category t0).get city category false t = none) ∧
    (c.set city data category t0).get city category false (t0 + CACHE_TTL_SECONDS - ε)
      = some data ∧
    (c.set city data category t0).get city category false (t0 + CACHE_TTL_SECONDS + ε)
      = none := by
  refine ⟨rfl, rfl, ?_, ?_, ?_, ?_⟩
  · intro h
    simp [ExperienceCache.get, ExperienceCache.set, dictGet_dictSet_self,
      CacheEntry.is_expired, mkCacheEntry, not_lt.mpr (le_of_lt h)]
  · intro h
    simp [ExperienceCache.get, ExperienceCache.set, dictGet_dictSet_self,
      CacheEntry.is_expired, mkCacheEntry, h]
  · have h : t0 + CACHE_TTL_SECONDS - ε < t0 + CACHE_TTL_SECONDS := by linarith
    simp [ExperienceCache.get, ExperienceCache.set, dictGet_dictSet_self,
      CacheEntry.is_expired, mkCacheEntry, not_lt.mpr (le_of_lt h)]
  · have h : t0 + CACHE_TTL_SECONDS < t0 + CACHE_TTL_SECONDS + ε := by linarith
    simp [ExperienceCache.get, ExperienceCache.set, dictGet_dictSet_self,
      CacheEntry.is_expired, mkCacheEntry, h]

/-- Witness for C7 at a concrete entry and `ε = 1`. -/
theorem cache_ttl_boundary_witness :
    (0 : ℚ) < 1 ∧
    ((ExperienceCache.mk [] 0).set "Bangalore" [clayRedditItem] none 0).get
        "Bangalore" none false (0 + CACHE_TTL_SECONDS - 1) = some [clayRedditItem] ∧
    ((ExperienceCache.mk [] 0).set "Bangalore" [clayRedditItem] none 0).get
        "Bangalore" none false (0 + CACHE_TTL_SECONDS + 1) = none := by
  have h := cache_ttl_boundary (ExperienceCache.mk [] 0) "Bangalore" none
    [clayRedditItem] 0 0 1 (by norm_num)
  exact ⟨by norm_num, h.2.2.2.2.1, h.2.2.2.2.2⟩

/-- C8: `get_or_fetch` on a cold cache performs exactly one aggregator call,
stores the result as a fresh entry under the derived key and returns it; a
second `get_or_fetch` for the same key within the TTL window performs zero
aggregator calls, leaves the cache unchanged and returns the identical stored
list. -/
theorem get_or_fetch_cold_then_cached (fetch fetch2 : String → List SourceExperience)
    (city : String) (t0 t1 : ℚ) (h : t1 ≤ t0 + CACHE_TTL_SECONDS) :
    (ExperienceCache.get_or_fetch ⟨[], 0⟩ fetch city none t0).2.fetch_count = 1 ∧
    (ExperienceCache.get_or_fetch ⟨[], 0⟩ fetch city none t0).1 = fetch city ∧
    dictGet (ExperienceCache.get_or_fetch ⟨[], 0⟩ fetch city none t0).2.cache
        (_make_key city none) = some (mkCacheEntry (fetch city) t0) ∧
    ExperienceCache.get_or_fetch
        (ExperienceCache.get_or_fetch ⟨[], 0⟩ fetch city none t0).2 fetch2 city none t1
      = ((ExperienceCache.get_or_fetch ⟨[], 0⟩ fetch city none t0).1,
         (ExperienceCache.get_or_fetch ⟨[], 0⟩ fetch city none t0).2) := by
  have hcold : ExperienceCache.get_or_fetch ⟨[], 0⟩ fetch city none t0
      = (fetch city, ⟨dictSet [] (_make_key city none) (mkCacheEntry (fetch city) t0), 1⟩) := by
    simp [ExperienceCache.get_or_fetch, ExperienceCache.get, ExperienceCache.set, dictGet]
  refine ⟨by rw [hcold], by rw [hcold], ?_, ?_⟩
  · rw [hcold]
    exact dictGet_dictSet_self _ _ _
  · rw [hcold]
    simp [ExperienceCache.get_or_fetch, ExperienceCache.get, dictGet_dictSet_self,
      CacheEntry.is_expired, mkCacheEntry, not_lt.mpr h]

/-- Witness for C8: a cold `getOrFetch("Bangalore")` at `t0 = 0` followed by a
second call at `t1 = 60`, with a second fetcher that would return different
data if it were consulted. -/
theorem get_or_fetch_cold_then_cached_witness :
    (ExperienceCache.get_or_fetch ⟨[], 0⟩ (fun _ => [clayRedditItem]) "Bangalore" none 0).2.fetch_count = 1 ∧
    ExperienceCache.get_or_fetch
        (ExperienceCache.get_or_fetch ⟨[], 0⟩ (fun _ => [clayRedditItem]) "Bangalore" none 0).2
        (fun _ => [clayGuideItem]) "Bangalore" none 60
      = ((ExperienceCache.get_or_fetch ⟨[], 0⟩ (fun _ => [clayRedditItem]) "Bangalore" none 0).1,
         (ExperienceCache.get_or_fetch ⟨[], 0⟩ (fun _ => [clayRedditItem]) "Bangalore" none 0).2) := by
  have h := get_or_fetch_cold_then_cached (fun _ => [clayRedditItem])
    (fun _ => [clayGuideItem]) "Bangalore" 0 60 (by norm_num [CACHE_TTL_SECONDS])
  exact ⟨h.1, h.2.2.2⟩

/-- C9: a raise in any one source is equivalent to that source contributing
nothing — the remaining sources are unaffected and `fetch_all` still returns
the deduplicated collection of the succeeding sources; every item of a
succeeding source keeps a representative of its normalized name in the
output; and the travel-guide source extends its result with its fixed
built-in list whenever live retrieval yields fewer than 5 items. -/
theorem fetch_all_source_isolation_and_fallback :
    (∀ ig tw rd msg, fetch_all (.error msg) ig tw rd = fetch_all (.ok []) ig tw rd) ∧
    (∀ tg tw rd msg, fetch_all tg (.error msg) tw rd = fetch_all tg (.ok []) tw rd) ∧
    (∀ tg ig rd msg, fetch_all tg ig (.error msg) rd = fetch_all tg ig (.ok []) rd) ∧
    (∀ tg ig tw msg, fetch_all tg ig tw (.error msg) = fetch_all tg ig tw (.ok [])) ∧
    (∀ tg ig tw rd, fetch_all tg ig tw rd =
        _deduplicate (excToList tg ++ excToList ig ++ excToList tw ++ excToList rd)) ∧
    (∀ tg ig tw rd e,
        e ∈ excToList tg ++ excToList ig ++ excToList tw ++ excToList rd →
        ∃ e2, e2 ∈ fetch_all tg ig tw rd ∧
          normalizeName e2.name = normalizeName e.name) ∧
    (∀ scrape1 scrape2, (excToList scrape1 ++ excToList scrape2).length < 5 →
        travel_guide_fetch scrape1 scrape2
          = (excToList scrape1 ++ excToList scrape2) ++ CURATED_EXPERIENCES) := by
  refine ⟨?_, ?_, ?_, ?_, ?_, ?_, ?_⟩
  · intro ig tw rd msg; simp [fetch_all, excToList]
  · intro tg tw rd msg; simp [fetch_all, excToList]
  · intro tg ig rd msg; simp [fetch_all, excToList]
  · intro tg ig tw msg; simp [fetch_all, excToList]
  · intro tg ig tw rd; simp [fetch_all, List.append_assoc]
  · intro tg ig tw rd e he
    have h := dedupGo_represents
      (excToList tg ++ excToList ig ++ excToList tw ++ excToList rd) [] e he
      (by simp)
    simpa [fetch_all, _deduplicate, List.append_assoc] using h
  · intro scrape1 scrape2 h
    unfold travel_guide_fetch
    rw [if_pos h]

/-- Witness for C9: with Reddit failing and one scrape failing, the Reddit
failure does not discard the travel-guide item, and the below-threshold
travel-guide fetch returns the curated list. -/
theorem fetch_all_source_isolation_and_fallback_witness :
    (∃ e2, e2 ∈ fetch_all (.ok [clayRedditItem]) (.ok []) (.ok []) (.error "reddit down") ∧
        normalizeName e2.name = normalizeName clayRedditItem.name) ∧
    travel_guide_fetch (.error "scrape failed") (.ok []) = [] ++ CURATED_EXPERIENCES := by
  constructor
  · exact fetch_all_source_isolation_and_fallback.2.2.2.2.2.1
      (.ok [clayRedditItem]) (.ok []) (.ok []) (.error "reddit down") clayRedditItem
      (by simp [excToList])
  · exact fetch_all_source_isolation_and_fallback.2.2.2.2.2.2
      (.error "scrape failed") (.ok []) (by simp [excToList])

/-- C10 counterexample: the items `{name := "x"}` and `{name := " x"}` have
*different* normalized names under the claim's stated normalization
(lowercase, then remove non-alphanumeric-non-space characters — a leading
space survives), so the claim predicts both are kept; the code additionally
`strip()`s the name and discards the second item. -/
theorem dedup_strip_divergence_cex :
    _deduplicate [plainXItem, spacedXItem] = [plainXItem] ∧
    claimNormalizeName spacedXItem.name ≠ claimNormalizeName plainXItem.name ∧
    dedupSpecBy (fun e => claimNormalizeName e.name) [plainXItem, spacedXItem]
      = [plainXItem, spacedXItem] := by
  refine ⟨by decide, by decide, ?_⟩
  have hne : (claimNormalizeName spacedXItem.name != claimNormalizeName plainXItem.name)
      = true := by decide
  simp [dedupSpecBy, List.filter_cons, hne]

/-- C10 amended: dedup normalizes each name by lowercasing, stripping leading
and trailing whitespace, and removing every character that is neither
alphanumeric nor whitespace, and keeps exactly the first occurrence per
normalized name in input order regardless of source; in particular the
claim's own two-item example dedups to exactly its first entry. -/
theorem dedup_first_occurrence_amended :
    (∀ l, _deduplicate l = dedupSpecBy (fun e => normalizeName e.name) l) ∧
    _deduplicate [clayRedditItem, clayGuideItem] = [clayRedditItem] := by
  constructor
  · intro l
    have h := dedupGo_eq_spec l []
    simpa [_deduplicate] using h
  · decide

/-- C1: whenever the Costing stage completes successfully (budget call
succeeds on a non-empty item list), the resulting cost breakdown's
`within_budget` equals `total_estimate <= budget_max` — the maximum of the
request's budget range — regardless of the `within_budget` the Generation
Service reported, and the trace records the stage's success. -/
theorem budget_within_budget_authoritative (request : ItineraryRequest)
    (o : Oracle) (sid : String) (exps : List Experience) (bj : BudgetJson)
    (hd : o.discovery = .ok exps) (hne : exps ≠ []) (hb : o.budget = .ok bj) :
    (run_workflow request o sid).budget_breakdown =
      some { total_estimate := bj.total_estimate.getD 0,
             breakdown := bj.breakdown, deals := bj.deals,
             within_budget := decide (bj.total_estimate.getD 0 ≤ request.budget_max) } ∧
    TraceEntry.mk "budget" "success" ∈ (run_workflow request o sid).agent_trace := by
  obtain ⟨od, oc, om, op, ob, ocf⟩ := o
  simp only at hd hb
  subst hd hb
  cases exps with
  | nil => exact absurd rfl hne
  | cons x xs =>
    rcases oc with e1 | c <;> rcases om with e2 | s <;> rcases op with e3 | pj <;>
      cases ocf <;> simp [List.getD]

/-- Witness for C1: the model reported `within_budget = false` for a 1800
estimate against a 5000 maximum; the pipeline overrides it to `true`. -/
theorem budget_within_budget_authoritative_witness :
    (run_workflow sampleRequest successOracle "sid-w1").budget_breakdown
      = some { total_estimate := 1800, breakdown := ["workshop"], deals := [],
               within_budget := true } ∧
    TraceEntry.mk "budget" "success"
      ∈ (run_workflow sampleRequest successOracle "sid-w1").agent_trace := by
  have h := budget_within_budget_authoritative sampleRequest successOracle "sid-w1"
    [sampleExperience] okBudget rfl (by simp) rfl
  simpa [okBudget, sampleRequest] using h

/-- C2 (at the failing input): with discovery succeeding and the Context
branch's call failing, exactly one `cultural_context` error entry exists in
the canonical errors list when the branches complete, yet after the join's
merge the same entry appears four times — the merge `extend`s the canonical
error list with itself once per branch, because the shallow branch copies
alias the same list object. -/
theorem branch_error_merge_duplicates_entries :
    ((runBranches (afterDiscovery sampleRequest culturalFailOracle "sid-c2").1
        (afterDiscovery sampleRequest culturalFailOracle "sid-c2").2
        culturalFailOracle).2).readErr
      (afterDiscovery sampleRequest culturalFailOracle "sid-c2").1.errors
      = [culturalErrorEntry] ∧
    ((afterBranchMerge sampleRequest culturalFailOracle "sid-c2").2).readErr
      (afterBranchMerge sampleRequest culturalFailOracle "sid-c2").1.errors
      = [culturalErrorEntry, culturalErrorEntry, culturalErrorEntry,
         culturalErrorEntry] := by
  constructor <;> rfl

/-- C3 counterexample: on an empty discovery result the plot-builder's skip
path writes a fixed non-empty fallback message, not the empty narrative
string the claim requires. -/
theorem empty_discovery_narrative_not_empty_cex :
    (run_workflow sampleRequest emptyDiscoveryOracle "sid-c3").narrative_itinerary
      = fallbackNarrative ∧ fallbackNarrative ≠ "" := by
  exact ⟨rfl, by decide⟩

/-- C3 amended: when Discovery yields an empty list, the Context, Community,
Synthesis and Costing stages each record a "skipped" trace entry, none of
them invokes the Generation Service (the call log holds only the discovery
call), the context and scaffolding maps stay empty and the cost breakdown is
the zero breakdown — but the narrative is set to the fixed fallback message
rather than the empty string — and the pipeline still returns a well-formed
result. -/
theorem empty_discovery_skips_all_stages (request : ItineraryRequest)
    (o : Oracle) (sid : String) (h : o.discovery = .ok []) :
    (run_workflow request o sid).agent_trace.length = 7 ∧
    TraceEntry.mk "cultural_context" "skipped" ∈ (run_workflow request o sid).agent_trace ∧
    TraceEntry.mk "community" "skipped" ∈ (run_workflow request o sid).agent_trace ∧
    TraceEntry.mk "plot_builder" "skipped" ∈ (run_workflow request o sid).agent_trace ∧
    TraceEntry.mk "budget" "skipped" ∈ (run_workflow request o sid).agent_trace ∧
    (run_workflow request o sid).cultural_context = [] ∧
    (run_workflow request o sid).social_scaffolding = [] ∧
    (run_workflow request o sid).narrative_itinerary = fallbackNarrative ∧
    (run_workflow request o sid).budget_breakdown
      = some { total_estimate := 0, breakdown := [], deals := [], within_budget := true } ∧
    (run_workflow request o sid).experiences = [] ∧
    (run_workflow request o sid).collision_suggestion = none ∧
    (run_workflow request o sid).session_id = sid ∧
    (run_workflow_exec request o sid).2.calls = ["discovery"] := by
  obtain ⟨od, oc, om, op, ob, ocf⟩ := o
  simp only at h
  subst h
  cases ocf <;> simp [List.getD]

/-- Witness for C3 (amended) at a concrete empty-discovery run. -/
theorem empty_discovery_skips_all_stages_witness :
    (run_workflow sampleRequest emptyDiscoveryOracle "sid-w3").budget_breakdown
      = some { total_estimate := 0, breakdown := [], deals := [], within_budget := true } ∧
    TraceEntry.mk "budget" "skipped"
      ∈ (run_workflow sampleRequest emptyDiscoveryOracle "sid-w3").agent_trace ∧
    (run_workflow_exec sampleRequest emptyDiscoveryOracle "sid-w3").2.calls
      = ["discovery"] := by
  obtain ⟨h1, h2, h3, h4, h5, h6, h7, h8, h9, h10, h11, h12, h13⟩ :=
    empty_discovery_skips_all_stages sampleRequest emptyDiscoveryOracle "sid-w3" rfl
  exact ⟨h9, h5, h13⟩

/-- C4 counterexample: the two branch copies of the post-Discovery state hold
the *same* discovered-items list object (shallow `state.copy()`), so an
in-place mutation performed through the Context branch's copy changes what
the Community branch observes in its own copy. -/
theorem branch_copy_shares_items_list_cex :
    c4Mem.readExp c4CommunityCopy.discovered_experiences = [sampleExperience] ∧
    c4Mutated.readExp c4CommunityCopy.discovered_experiences
      = [sampleExperience, sampleExperience2] ∧
    c4Mutated.readExp c4CommunityCopy.discovered_experiences
      ≠ c4Mem.readExp c4CommunityCopy.discovered_experiences := by
  refine ⟨rfl, rfl, by decide⟩

/-- C4 amended: each branch receives a shallow copy — the discovered-items
list object is shared between the copies, so an in-place mutation of it would
be visible to both; however, the Context and Community stages as written
never mutate that list (they only rebind their own output fields), so in
every actual run the experiences heap is unchanged by either branch and what
each branch observes as its discovered items is unaffected by the other's
execution. -/
theorem branch_isolation_amended (st : AgentState) (m : Mem)
    (oc om : Except String (Option CtxMap)) :
    (stateCopy st).discovered_experiences = st.discovered_experiences ∧
    ((run_cultural_context (stateCopy st) m oc).2).expH = m.expH ∧
    ((run_community (stateCopy st) m om).2).expH = m.expH ∧
    ((run_cultural_context (stateCopy st) m oc).1).discovered_experiences
      = st.discovered_experiences ∧
    ((run_community (stateCopy st) m om).1).discovered_experiences
      = st.discovered_experiences ∧
    ((run_cultural_context (stateCopy st) m oc).2).readExp
        (stateCopy st).discovered_experiences = m.readExp st.discovered_experiences ∧
    ((run_community (stateCopy st) m om).2).readExp
        (stateCopy st).discovered_experiences = m.readExp st.discovered_experiences := by
  have hc : ((run_cultural_context st m oc).2).expH = m.expH ∧
      ((run_cultural_context st m oc).1).discovered_experiences
        = st.discovered_experiences := by
    rcases oc with msg | ctx <;> simp only [run_cultural_context] <;>
      split <;> (try split) <;> simp
  have hm : ((run_community st m om).2).expH = m.expH ∧
      ((run_community st m om).1).discovered_experiences
        = st.discovered_experiences := by
    rcases om with msg | scaf <;> simp only [run_community] <;>
      split <;> (try split) <;> simp
  refine ⟨rfl, hc.1, hm.1, hc.2, hm.2, ?_, ?_⟩
  · simp only [stateCopy, Mem.readExp, hc.1]
  · simp only [stateCopy, Mem.readExp, hm.1]

/-- C5: every run produces a well-formed result object whose trace starts
with the coordinator's "started" entry and ends with its "completed" entry
(the pipeline always runs to the end); and each stage's failure is isolated:
it degrades that stage's output to its zero value, appends an ErrorEntry for
that stage, and never propagates. -/
theorem workflow_failure_isolation (request : ItineraryRequest) (o : Oracle)
    (sid : String) :
    ((run_workflow request o sid).agent_trace.head?
        = some { agent := "coordinator", status := "started" } ∧
      (run_workflow request o sid).agent_trace.getLast?
        = some { agent := "coordinator", status := "completed" } ∧
      (run_workflow request o sid).session_id = sid) ∧
    (∀ msg, o.discovery = .error msg →
      (run_workflow request o sid).experiences = [] ∧
      ErrorEntry.mk "discovery" msg ∈ finalErrors request o sid) ∧
    (∀ exps msg, o.discovery = .ok exps → exps ≠ [] → o.cultural = .error msg →
      (run_workflow request o sid).cultural_context = [] ∧
      ErrorEntry.mk "cultural_context" msg ∈ finalErrors request o sid) ∧
    (∀ exps msg, o.discovery = .ok exps → exps ≠ [] → o.community = .error msg →
      (run_workflow request o sid).social_scaffolding = [] ∧
      ErrorEntry.mk "community" msg ∈ finalErrors request o sid) ∧
    (∀ exps msg, o.discovery = .ok exps → exps ≠ [] → o.plot = .error msg →
      (run_workflow request o sid).narrative_itinerary = "" ∧
      (run_workflow request o sid).collision_suggestion = none ∧
      ErrorEntry.mk "plot_builder" msg ∈ finalErrors request o sid) ∧
    (∀ exps msg, o.discovery = .ok exps → exps ≠ [] → o.budget = .error msg →
      (run_workflow request o sid).budget_breakdown = none ∧
      ErrorEntry.mk "budget" msg ∈ finalErrors request o sid) := by
  obtain ⟨od, oc, om, op, ob, ocf⟩ := o
  refine ⟨?_, ?_, ?_, ?_, ?_, ?_⟩
  · rcases od with msg | exps
    · cases ocf <;> simp [List.getD]
    · cases exps with
      | nil => cases ocf <;> simp [List.getD]
      | cons x xs =>
        rcases oc with e1 | c <;> rcases om with e2 | s <;> rcases op with e3 | pj <;>
          rcases ob with e4 | bj <;> cases ocf <;> simp [List.getD]
  · intro msg h
    simp only at h
    subst h
    cases ocf <;> simp [List.getD]
  · intro exps msg hd hne hc
    simp only at hd hc
    subst hd hc
    cases exps with
    | nil => exact absurd rfl hne
    | cons x xs =>
      rcases om with e2 | s <;> rcases op with e3 | pj <;>
        rcases ob with e4 | bj <;> cases ocf <;> simp [List.getD]
  · intro exps msg hd hne hc
    simp only at hd hc
    subst hd hc
    cases exps with
    | nil => exact absurd rfl hne
    | cons x xs =>
      rcases oc with e1 | c <;> rcases op with e3 | pj <;>
        rcases ob with e4 | bj <;> cases ocf <;> simp [List.getD]
  · intro exps msg hd hne hc
    simp only at hd hc
    subst hd hc
    cases exps with
    | nil => exact absurd rfl hne
    | cons x xs =>
      rcases oc with e1 | c <;> rcases om with e2 | s <;>
        rcases ob with e4 | bj <;> cases ocf <;> simp [List.getD]
  · intro exps msg hd hne hc
    simp only at hd hc
    subst hd hc
    cases exps with
    | nil => exact absurd rfl hne
    | cons x xs =>
      rcases oc with e1 | c <;> rcases om with e2 | s <;>
        rcases op with e3 | pj <;> cases ocf <;> simp [List.getD]

/-- Witness for C5: a run where every post-discovery Generation-Service call
fails still completes with every output at its zero value and the error
entries recorded. -/
theorem workflow_failure_isolation_witness :
    (run_workflow sampleRequest allFailOracle "sid-w5").narrative_itinerary = "" ∧
    (run_workflow sampleRequest allFailOracle "sid-w5").budget_breakdown = none ∧
    (run_workflow sampleRequest allFailOracle "sid-w5").cultural_context = [] ∧
    (run_workflow sampleRequest allFailOracle "sid-w5").social_scaffolding = [] ∧
    ErrorEntry.mk "budget" "boom-budget" ∈ finalErrors sampleRequest allFailOracle "sid-w5" ∧
    (run_workflow sampleRequest allFailOracle "sid-w5").agent_trace.getLast?
      = some { agent := "coordinator", status := "completed" } := by
  obtain ⟨hwf, hdisc, hcul, hcom, hplot, hbud⟩ :=
    workflow_failure_isolation sampleRequest allFailOracle "sid-w5"
  exact ⟨(hplot [sampleExperience] "boom-plot" rfl (by simp) rfl).1,
         (hbud [sampleExperience] "boom-budget" rfl (by simp) rfl).1,
         (hcul [sampleExperience] "boom-ctx" rfl (by simp) rfl).1,
         (hcom [sampleExperience] "boom-com" rfl (by simp) rfl).1,
         (hbud [sampleExperience] "boom-budget" rfl (by simp) rfl).2,
         hwf.2.1⟩

/-- C6: in every run, each stage name (discovery, cultural_context,
community, plot_builder, budget) appears in exactly one trace entry of the
final trace list returned in the result. -/
theorem trace_each_stage_exactly_once (request : ItineraryRequest) (o : Oracle)
    (sid : String) :
    countAgent (run_workflow request o sid).agent_trace "discovery" = 1 ∧
    countAgent (run_workflow request o sid).agent_trace "cultural_context" = 1 ∧
    countAgent (run_workflow request o sid).agent_trace "community" = 1 ∧
    countAgent (run_workflow request o sid).agent_trace "plot_builder" = 1 ∧
    countAgent (run_workflow request o sid).agent_trace "budget" = 1 := by
  obtain ⟨od, oc, om, op, ob, ocf⟩ := o
  rcases od with msg | exps
  · cases ocf <;> simp [List.getD]
  · cases exps with
    | nil => cases ocf <;> simp [List.getD]
    | cons x xs =>
      rcases oc with e1 | c <;> rcases om with e2 | s <;> rcases op with e3 | pj <;>
        rcases ob with e4 | bj <;> cases ocf <;> simp [List.getD]

end Sidequest
